import Mathlib

/-!
Verification development for the CLDB-AI dashboard front end.

The repository is a React/TypeScript client for a marketing-analytics
backend.  This file gives a shallow embedding of the parts of the client
that carry logical content: the transport layer (`handleResponse` and the
endpoint-binding wrappers in `api.ts`), the derived-display utilities
(`formatCampaignName`, `formatDuration`, `getROIPerformanceIndicator`),
the feature-flag gate (`features.ts` / `AdvancedROI.tsx`), and the
synchronous state transitions of the ROI and Compare views.

JavaScript strings are modelled as `String`, JavaScript numbers as `ℚ`
(no claim under scrutiny depends on binary floating point rounding, NaN
or Infinity; where `NaN` can flow through `parseFloat` it is modelled as
`Option ℚ` with `none` for NaN), `null`/`undefined` as `Option`, and
thrown exceptions as the `Except` error channel.
-/

namespace CLDB

/-- JSON values, the shape produced by `JSON.parse` / consumed by the
client.  Numbers are restricted to integers: every JSON literal that the
claims exercise is integral. -/
inductive Json where
  | null
  | bool (b : Bool)
  | num (n : Int)
  | str (s : String)
  | arr (elems : List Json)
  | obj (fields : List (String × Json))

/-- First binding of `key` in a JS object's field list. -/
def lookupField : List (String × Json) → String → Option Json
  | [], _ => none
  | (k, v) :: rest, key => if k = key then some v else lookupField rest key

/-- Property access `j.key` on a parsed JSON value: `none` models
JavaScript `undefined` (missing property, or access on a non-object). -/
def getField (j : Json) (key : String) : Option Json :=
  match j with
  | Json.obj fields => lookupField fields key
  | _ => none

/-- JavaScript truthiness of a JSON value: `null`, `false`, `0` and the
empty string are falsy; arrays and objects are always truthy. -/
def jsTruthy : Json → Bool
  | Json.null => false
  | Json.bool b => b
  | Json.num n => decide (n ≠ 0)
  | Json.str s => decide (s ≠ "")
  | Json.arr _ => true
  | Json.obj _ => true

mutual

/-- JavaScript `String(v)` coercion of a JSON value (the coercion the
`Error` constructor applies to its `message` argument). -/
def jsStringOf : Json → String
  | Json.null => "null"
  | Json.bool b => cond b "true" "false"
  | Json.num n => toString n
  | Json.str s => s
  | Json.arr elems => String.intercalate "," (jsStringItems elems)
  | Json.obj _ => "[object Object]"

/-- Element-wise coercion used by JavaScript `Array.prototype.toString`:
`null` elements render as the empty string. -/
def jsStringItems : List Json → List String
  | [] => []
  | Json.null :: rest => "" :: jsStringItems rest
  | j :: rest => jsStringOf j :: jsStringItems rest

end

/-- Field access `j.key || fallback` restricted to a truthy result: the field's value
when it exists and is truthy, otherwise `none`. -/
def truthyField (j : Json) (key : String) : Option Json :=
  match getField j key with
  | some v => if jsTruthy v then some v else none
  | none => none

/-- Decimal value of a digit list (most significant first). -/
def digitsToNat (ds : List Char) : Nat :=
  ds.foldl (fun a c => a * 10 + (c.toNat - 48)) 0

/-- Exponent suffix accepted by `parseFloat` after `e`/`E`: an optional
sign and digits; when no digits follow, the exponent part is ignored
(JavaScript `parseFloat("1e")` is `1`). -/
def parseExponent (cs : List Char) : Int :=
  let (esgn, cs1) :=
    match cs with
    | '-' :: rest => ((-1 : Int), rest)
    | '+' :: rest => ((1 : Int), rest)
    | _ => ((1 : Int), cs)
  let (ds, _) := cs1.span (fun c => c.isDigit)
  if ds.isEmpty then 0 else esgn * (digitsToNat ds : Int)

/-- JavaScript `parseFloat`: skip leading whitespace, optional sign,
longest decimal-literal prefix (`digits [. digits] [e[±]digits]`);
`none` models `NaN` (no digits at all).  The value is assembled as
`sign * digits * 10 ^ (exponent - fraction length)` over the integers
and a final `mkRat`, which is arithmetically the standard reading of
the literal.  The `Infinity` literal is not modelled; no input under
scrutiny produces it. -/
def parseFloat (s : String) : Option ℚ :=
  let cs := s.data.dropWhile (fun c => c.isWhitespace)
  let (sgn, cs1) : Int × List Char :=
    match cs with
    | '-' :: rest => (-1, rest)
    | '+' :: rest => (1, rest)
    | _ => (1, cs)
  let (ip, rest1) := cs1.span (fun c => c.isDigit)
  let (fp, rest2) : List Char × List Char :=
    match rest1 with
    | '.' :: rest => rest.span (fun c => c.isDigit)
    | _ => ([], rest1)
  if ip.isEmpty && fp.isEmpty then
    none
  else
    let mantissa : Int := sgn * (digitsToNat (ip ++ fp) : Int)
    let expo : Int :=
      (match rest2 with
        | 'e' :: rest => parseExponent rest
        | 'E' :: rest => parseExponent rest
        | _ => 0) - (fp.length : Int)
    if 0 ≤ expo then
      some (mkRat (mantissa * (10 : Int) ^ expo.toNat) 1)
    else
      some (mkRat mantissa ((10 : Nat) ^ (-expo).toNat))

/-- JavaScript `String.prototype.trim`: strip whitespace from both
ends. -/
def jsTrim (s : String) : String :=
  ⟨((s.data.dropWhile (fun c => c.isWhitespace)).reverse.dropWhile (fun c => c.isWhitespace)).reverse⟩

/-- Coercion `parseFloat(s) || 0`: NaN (and `0` itself) collapse to `0`. -/
def jsNumberOr0 (s : String) : ℚ :=
  match parseFloat s with
  | some q => q
  | none => 0

-- ========== TRANSPORT LAYER (src/services/api.ts) ==========

/-- The parts of a fetched `Response` that `handleResponse` inspects.
`bodyText` is what `response.text()` yields; `response.json()` is
modelled by applying a JSON-parse function to the same text. -/
structure Response where
  status : Nat
  statusText : String
  bodyText : String

/-- Predicate `response.ok` per the fetch standard: status in the 200-299 range. -/
def responseOk (r : Response) : Bool :=
  decide (200 ≤ r.status) && decide (r.status ≤ 299)

/-- A thrown JavaScript value: the typed `APIError` (message, optional
numeric status, optional raw body), any other `Error` (just a message),
or a thrown non-`Error` value. -/
inductive Thrown where
  | apiError (message : String) (status : Option Nat) (response : Option String)
  | jsError (message : String)
  | jsValue (value : Json)

/-- Test `error instanceof APIError`. -/
def isAPIError : Thrown → Bool
  | Thrown.apiError _ _ _ => true
  | _ => false

/-- Expression `error instanceof Error ? error.message : 'Network error'`, the
message extraction used by every endpoint binding's catch block. -/
def messageOrNetwork : Thrown → String
  | Thrown.apiError m _ _ => m
  | Thrown.jsError m => m
  | Thrown.jsValue _ => "Network error"

/-- Message of the platform `SyntaxError` rejected by `response.json()`
on an unparseable body.  The exact text is runtime-defined; no claim
depends on its content. -/
def jsonParseRejectionMessage : String :=
  "Unexpected token in JSON"

/-- Function `handleResponse` from `src/services/api.ts`, parameterised by the
platform JSON parser (`JSON.parse` / `response.json()`, with `none` for
a parse exception).  Non-2xx: build the error message from the body
(`errorData.detail || errorData.message || fallback`, with JS
truthiness and `String()` coercion) and throw `APIError(message,
status, bodyText)`.  2xx: return `response.json()`, whose parse failure
escapes as a non-`APIError` exception. -/
def handleResponse (parse : String → Option Json) (r : Response) : Except Thrown Json :=
  if responseOk r = false then
    let errorText := r.bodyText
    let fallbackMessage := "HTTP " ++ toString r.status ++ ": " ++ r.statusText
    let errorMessage :=
      match parse errorText with
      | some errorData =>
          match truthyField errorData "detail" with
          | some v => jsStringOf v
          | none =>
              match truthyField errorData "message" with
              | some v => jsStringOf v
              | none => fallbackMessage
      | none => fallbackMessage
    Except.error (Thrown.apiError errorMessage (some r.status) (some errorText))
  else
    match parse r.bodyText with
    | some j => Except.ok j
    | none => Except.error (Thrown.jsError jsonParseRejectionMessage)

-- ========== DATA MODEL (src/services/api.ts type definitions) ==========

/-- The `CampaignSummary` DTO from `src/services/api.ts`.  JS numbers that
are always integral in the claims are `Int`; genuinely fractional
metrics are `ℚ`; `null` is `Option`. -/
structure CampaignSummary where
  campaign_id : Int
  name : Option String
  client_name : Option String
  industry : Option String
  job_type : Option String
  status : Option String
  total_pcs_mailed : Option Int
  mail_date : Option String
  duration_days : Option Int
  combined_social_ctr : Option ℚ
  leads_per_1000 : Option ℚ
  total_social_clicks : Option Int
  total_social_impressions : Option Int
  total_leads : Option Int
  deriving DecidableEq

/-- A browser `File` object, as far as the client inspects it. -/
structure File where
  name : String
  size : Nat
  deriving DecidableEq

-- ========== DERIVED-DISPLAY UTILITIES (src/services/api.ts) ==========

/-- Function `formatCampaignName` from `src/services/api.ts`:
`campaign.name || \x7bCampaign $\x7bcampaign.campaign_id\x7d\x7d` — the
fallback fires on the JS-falsy names `null` and `""`. -/
def formatCampaignName (campaign : CampaignSummary) : String :=
  match campaign.name with
  | some s => if s = "" then "Campaign " ++ toString campaign.campaign_id else s
  | none => "Campaign " ++ toString campaign.campaign_id

/-- Function `formatDuration` from `src/services/api.ts`: the `!durationDays`
null-check also catches the falsy value `0`. -/
def formatDuration (durationDays : Option Int) : String :=
  match durationDays with
  | none => "Unknown duration"
  | some n =>
      if n = 0 then "Unknown duration"
      else if n = 1 then "1 day"
      else toString n ++ " days"

/-- Result record of `getROIPerformanceIndicator`. -/
structure ROIIndicator where
  label : String
  color : String
  icon : String
  deriving DecidableEq

/-- Function `getROIPerformanceIndicator` from `src/services/api.ts`. -/
def getROIPerformanceIndicator (roiPercentage : ℚ) : ROIIndicator :=
  if roiPercentage ≥ 300 then
    { label := "Excellent ROI", color := "text-green-600", icon := "🚀" }
  else if roiPercentage ≥ 100 then
    { label := "Good ROI", color := "text-green-500", icon := "✅" }
  else if roiPercentage ≥ 0 then
    { label := "Positive ROI", color := "text-blue-500", icon := "📈" }
  else
    { label := "Loss", color := "text-red-500", icon := "⚠️" }

-- ========== FEATURE FLAGS (src/config/features.ts) ==========

/-- Keys of the `FEATURE_FLAGS` constant object. -/
inductive FeatureFlag where
  | SIMPLE_ROI
  | CAMPAIGN_MATCHED_ROI
  deriving DecidableEq

/-- The `FEATURE_FLAGS` table: `SIMPLE_ROI: true`,
`CAMPAIGN_MATCHED_ROI: false` (disabled for production). -/
def FEATURE_FLAGS : FeatureFlag → Bool
  | FeatureFlag.SIMPLE_ROI => true
  | FeatureFlag.CAMPAIGN_MATCHED_ROI => false

/-- Function `isFeatureEnabled` from `src/config/features.ts`. -/
def isFeatureEnabled (feature : FeatureFlag) : Bool :=
  FEATURE_FLAGS feature

-- ========== ENDPOINT BINDINGS (src/services/api.ts) ==========

/-- The `await fetch(...)` / `await handleResponse(response)` body of
an endpoint binding's `try` block: a rejected fetch propagates its
exception, a fulfilled fetch feeds the response to `handleResponse`. -/
def fetchStep (parse : String → Option Json) (fetchOutcome : Except Thrown Response) : Except Thrown Json :=
  match fetchOutcome with
  | Except.ok r => handleResponse parse r
  | Except.error e => Except.error e

/-- The shared `catch` block of every endpoint binding except
`healthCheck`: rethrow an `APIError` unchanged; wrap anything else in
`new APIError(opMessage + ": " + (error.message or "Network error"))`
with no status and no response body. -/
def rewrapCatch (opMessage : String) (attempt : Except Thrown Json) : Except Thrown Json :=
  match attempt with
  | Except.ok v => Except.ok v
  | Except.error e =>
      if isAPIError e then Except.error e
      else Except.error (Thrown.apiError (opMessage ++ ": " ++ messageOrNetwork e) none none)

/-- Binding `apiService.getClients`: fetch `/clients`, unwrap, rewrap non-API
errors under `"Failed to fetch clients"`. -/
def getClients (parse : String → Option Json) (fetchOutcome : Except Thrown Response) : Except Thrown Json :=
  rewrapCatch "Failed to fetch clients" (fetchStep parse fetchOutcome)

/-- Binding `apiService.healthCheck`: its `catch` block wraps EVERY exception —
including an `APIError` thrown by `handleResponse` — in a fresh
`APIError("API health check failed: " + message)` with no status and no
body. -/
def healthCheck (parse : String → Option Json) (fetchOutcome : Except Thrown Response) : Except Thrown Json :=
  match fetchStep parse fetchOutcome with
  | Except.ok v => Except.ok v
  | Except.error e =>
      Except.error (Thrown.apiError ("API health check failed: " ++ messageOrNetwork e) none none)

-- ========== ENHANCED ROI VIEW (EnhancedROI component) ==========

/-- The `useState` cells of the `EnhancedROI` component that its input
handlers and Calculate action read or write. -/
structure ROIState where
  campaignCost : String
  pastedData : String
  selectedFile : Option File
  roiResult : Option Json
  calculationError : Option String
  isParsing : Bool
  pasteError : Option String
  isProcessingFile : Bool
  fileProcessingError : Option String
  campaigns : List CampaignSummary
  selectedCampaign : Option CampaignSummary
  isLoadingCampaigns : Bool
  campaignError : Option String

/-- Handler `handleFileUpload`: when the change event carries a file, select
it, clear the file/calculation errors, and clear the pasted text. -/
def handleFileUpload (s : ROIState) (eventFile : Option File) : ROIState :=
  match eventFile with
  | some file =>
      { s with
        selectedFile := some file
        fileProcessingError := none
        calculationError := none
        pastedData := "" }
  | none => s

/-- Handler `handleDrop`: same state updates as `handleFileUpload`, for the
first file of the drop event's `dataTransfer`. -/
def handleDrop (s : ROIState) (droppedFile : Option File) : ROIState :=
  match droppedFile with
  | some file =>
      { s with
        selectedFile := some file
        fileProcessingError := none
        calculationError := none
        pastedData := "" }
  | none => s

/-- The pasted-text textarea's `onChange`: it only writes
`pastedData`; in particular it does NOT touch `selectedFile`. -/
def pastedDataChange (s : ROIState) (value : String) : ROIState :=
  { s with pastedData := value }

/-- The `ROIRequest` DTO; `none` models an absent (undefined) field, which
`JSON.stringify` omits from the wire body. -/
structure ROIRequest where
  campaign_cost : Option ℚ
  revenue : Option ℚ
  additional_costs : Option ℚ
  campaign_id : Option Int
  uploaded_data : Option String
  data_format : Option String
  deriving DecidableEq

/-- The request object built by `handlePasteDataProcessing`:
`uploaded_data` is the pasted text, `data_format` is `"text"`,
`campaign_id` comes from the optional campaign selection, and the
spread `...(cost > 0 && \x7b campaign_cost: cost \x7d)` adds
`campaign_cost` exactly when `parseFloat(campaignCost) || 0` is
positive. -/
def buildPasteRequest (campaignCost pastedText : String) (selectedCampaign : Option CampaignSummary) : ROIRequest :=
  let cost := jsNumberOr0 campaignCost
  { campaign_cost := if 0 < cost then some cost else none
    revenue := none
    additional_costs := none
    campaign_id := selectedCampaign.map (fun c => c.campaign_id)
    uploaded_data := some pastedText
    data_format := some "text" }

/-- What a click of the Calculate button decides to do. -/
inductive CalcClickOutcome where
  | processFile (file : File)
  | sendPasteRequest (request : ROIRequest)
  | showError (message : String)
  deriving DecidableEq

/-- Validation message shown when only a cost is entered. -/
def roiNeedRevenueMessage : String :=
  "Please paste revenue data in the text area or upload a file with revenue data."

/-- Validation message shown when there is no usable input. -/
def roiNoInputMessage : String :=
  "Please enter campaign cost and paste revenue data OR upload a file with revenue data."

/-- The Calculate button's `onClick` from `EnhancedROI`: priority 1 a
selected file (when not already processing), priority 2 pasted text
with positive cost, priority 3 pasted text with zero cost, then the
validation errors.  A cost that is negative after the
`parseFloat(...) || 0` coercion falls through every data branch. -/
def calculateClick (s : ROIState) : CalcClickOutcome :=
  let cost := jsNumberOr0 s.campaignCost
  match s.selectedFile, s.isProcessingFile with
  | some file, false => CalcClickOutcome.processFile file
  | _, _ =>
      if jsTrim s.pastedData ≠ "" ∧ 0 < cost then
        CalcClickOutcome.sendPasteRequest (buildPasteRequest s.campaignCost s.pastedData s.selectedCampaign)
      else if jsTrim s.pastedData ≠ "" ∧ cost = 0 then
        CalcClickOutcome.sendPasteRequest (buildPasteRequest s.campaignCost s.pastedData s.selectedCampaign)
      else if 0 < cost then
        CalcClickOutcome.showError roiNeedRevenueMessage
      else
        CalcClickOutcome.showError roiNoInputMessage

-- ========== ADVANCED ROI VIEW (AdvancedROI component) ==========

/-- What `calculateCampaignROI` in `AdvancedROI.tsx` decides to do
before any asynchronous work: surface the coming-soon error, surface
the missing-input error, or call the campaign-matched backend
endpoint. -/
inductive CampaignCalcOutcome where
  | comingSoon (errorMessage : String)
  | missingInput (errorMessage : String)
  | backendCall (campaignId : Int) (campaignCost : Option ℚ) (salesFile : File)
  deriving DecidableEq

/-- Error text set when the campaign-matched feature flag is off. -/
def campaignMatchedComingSoonMessage : String :=
  "Campaign-matched ROI analysis is coming soon! This advanced feature is currently in development."

/-- Error text set when campaign, file or cost is missing. -/
def campaignMissingInputMessage : String :=
  "Please select a campaign, upload sales data, and enter campaign cost"

/-- Function `calculateCampaignROI` from `AdvancedROI.tsx`: the feature-flag
check runs first and short-circuits with the coming-soon error; then
the input validation; only then is
`apiService.calculateAdvancedROICampaignMatched` reached, with
`parseFloat(matchedCampaignCost)` as the cost. -/
def calculateCampaignROI (selectedCampaign : Option CampaignSummary) (salesDataFile : Option File) (matchedCampaignCost : String) : CampaignCalcOutcome :=
  if isFeatureEnabled FeatureFlag.CAMPAIGN_MATCHED_ROI = false then
    CampaignCalcOutcome.comingSoon campaignMatchedComingSoonMessage
  else
    match selectedCampaign, salesDataFile with
    | some campaign, some file =>
        if matchedCampaignCost = "" then
          CampaignCalcOutcome.missingInput campaignMissingInputMessage
        else
          CampaignCalcOutcome.backendCall campaign.campaign_id (parseFloat matchedCampaignCost) file
    | _, _ => CampaignCalcOutcome.missingInput campaignMissingInputMessage

-- ========== COMPARE VIEW (CompareCampaigns component) ==========

/-- The `useState` cells of the `CompareCampaigns` component. -/
structure CompareState where
  campaigns : List CampaignSummary
  primaryCampaign : Option CampaignSummary
  comparisonCampaign : Option CampaignSummary
  similarCampaigns : List CampaignSummary
  compareResult : Option Json
  isLoadingCampaigns : Bool
  isLoadingSimilar : Bool
  isAnalyzing : Bool
  campaignError : Option String
  similarError : Option String
  analysisError : Option String

/-- The primary-campaign dropdown's `onChange`: parse the selected id
and look it up in the loaded campaign list (`none` models both the
blank option and a failed lookup). -/
def selectPrimaryCampaign (s : CompareState) (campaignId : Option Int) : CompareState :=
  { s with primaryCampaign :=
      match campaignId with
      | some i => s.campaigns.find? (fun c => decide (c.campaign_id = i))
      | none => none }

/-- The synchronous prefix of the `loadSimilarCampaigns` effect that
runs on a `primaryCampaign` change, i.e. everything executed before the
`await` of `getSimilarCampaigns`: with no primary it clears the similar
list and the comparison selection; with a primary it sets the loading
flag, clears the similar-fetch error and clears the comparison
selection — and touches nothing else. -/
def similarEffectStart (s : CompareState) : CompareState :=
  match s.primaryCampaign with
  | none =>
      { s with similarCampaigns := [], comparisonCampaign := none }
  | some _ =>
      { s with isLoadingSimilar := true, similarError := none, comparisonCampaign := none }

/-- The continuation of `loadSimilarCampaigns` after the awaited fetch
settles: store the data on success, or the error message (APIError
message, generic text otherwise) and an empty list on failure; either
way drop the loading flag. -/
def similarEffectResolve (s : CompareState) (outcome : Except Thrown (List CampaignSummary)) : CompareState :=
  match outcome with
  | Except.ok similarData =>
      { s with similarCampaigns := similarData, isLoadingSimilar := false }
  | Except.error (Thrown.apiError m _ _) =>
      { s with similarError := some m, similarCampaigns := [], isLoadingSimilar := false }
  | Except.error _ =>
      { s with similarError := some "Failed to load similar campaigns", similarCampaigns := [], isLoadingSimilar := false }

-- ========== SHARED CONCRETE TEST DATA ==========

/-- A small concrete `CampaignSummary` used to instantiate theorems. -/
def sampleCampaign (i : Int) : CampaignSummary :=
  { campaign_id := i
    name := some ("C" ++ toString i)
    client_name := none
    industry := none
    job_type := none
    status := none
    total_pcs_mailed := none
    mail_date := none
    duration_days := some 30
    combined_social_ctr := none
    leads_per_1000 := none
    total_social_clicks := none
    total_social_impressions := none
    total_leads := none }

/-- A JSON parse function that fails on every body (a non-JSON body). -/
def parseNone : String → Option Json := fun _ => none

/-- A concrete 500 response with a non-JSON body. -/
def response500 : Response :=
  { status := 500, statusText := "Internal Server Error", bodyText := "boom" }

-- ========== CLAIMS ==========

/-- Claim C7 counterexample: a `CampaignSummary` whose `name` is the
non-null empty string.  `formatCampaignName` does NOT return that name
unchanged: the JS `||` fallback treats `""` as falsy and yields
`"Campaign 7"` instead. -/
theorem formatCampaignName_empty_name_counterexample :
    ({ sampleCampaign 7 with name := some "" } : CampaignSummary).name = some ""
      ∧ formatCampaignName { sampleCampaign 7 with name := some "" } = "Campaign 7"
      ∧ ("Campaign 7" : String) ≠ "" := by
  refine ⟨rfl, rfl, ?_⟩
  decide

/-- Claim C7 (amended): `formatCampaignName` returns `"Campaign
{campaign_id}"` when the name is null OR the empty string, and returns
the name unchanged only when it is non-null and non-empty. -/
theorem formatCampaignName_spec (c : CampaignSummary) :
    (c.name = none → formatCampaignName c = "Campaign " ++ toString c.campaign_id)
      ∧ (c.name = some "" → formatCampaignName c = "Campaign " ++ toString c.campaign_id)
      ∧ (∀ s, c.name = some s → s ≠ "" → formatCampaignName c = s) := by
  refine ⟨?_, ?_, ?_⟩
  · intro h
    simp [formatCampaignName, h]
  · intro h
    simp [formatCampaignName, h]
  · intro s h hne
    simp [formatCampaignName, h, hne]

/-- Claim C7 witness: the amended theorem applied to concrete
campaigns with a null name and with the non-empty name `"Summer"`. -/
theorem formatCampaignName_spec_witness :
    formatCampaignName { sampleCampaign 7 with name := none } = "Campaign " ++ toString (7 : Int)
      ∧ formatCampaignName { sampleCampaign 7 with name := some "Summer" } = "Summer" :=
  ⟨(formatCampaignName_spec { sampleCampaign 7 with name := none }).1 rfl,
   (formatCampaignName_spec { sampleCampaign 7 with name := some "Summer" }).2.2 "Summer" rfl (by decide)⟩

/-- Claim C8: `formatDuration` maps `null` to `"Unknown duration"`,
exactly `1` to `"1 day"`, every `n > 1` to `"{n} days"`, and `0` — a
JS-falsy value caught by the `!durationDays` check — to `"Unknown
duration"` as well. -/
theorem formatDuration_spec :
    formatDuration none = "Unknown duration"
      ∧ formatDuration (some 1) = "1 day"
      ∧ (∀ n : Int, 1 < n → formatDuration (some n) = toString n ++ " days")
      ∧ formatDuration (some 0) = "Unknown duration" := by
  refine ⟨rfl, rfl, ?_, rfl⟩
  intro n hn
  have h0 : n ≠ 0 := by omega
  have h1 : n ≠ 1 := by omega
  simp [formatDuration, h0, h1]

/-- Claim C8 witness: the `n > 1` case applied at `n = 45`. -/
theorem formatDuration_spec_witness :
    (1 : Int) < 45 ∧ formatDuration (some 45) = toString (45 : Int) ++ " days" :=
  ⟨by decide, formatDuration_spec.2.2.1 45 (by decide)⟩

/-- Claim C9: `getROIPerformanceIndicator` tiers with inclusive lower
bounds — `pct ≥ 300` Excellent, `100 ≤ pct < 300` Good, `0 ≤ pct <
100` Positive, `pct < 0` Loss. -/
theorem getROIPerformanceIndicator_spec (q : ℚ) :
    (300 ≤ q → (getROIPerformanceIndicator q).label = "Excellent ROI")
      ∧ (100 ≤ q → q < 300 → (getROIPerformanceIndicator q).label = "Good ROI")
      ∧ (0 ≤ q → q < 100 → (getROIPerformanceIndicator q).label = "Positive ROI")
      ∧ (q < 0 → (getROIPerformanceIndicator q).label = "Loss") := by
  refine ⟨?_, ?_, ?_, ?_⟩
  · intro h
    simp [getROIPerformanceIndicator, ge_iff_le, h]
  · intro h1 h2
    simp [getROIPerformanceIndicator, ge_iff_le, h1, not_le.mpr h2]
  · intro h1 h2
    have h100 : ¬ (100 : ℚ) ≤ q := by linarith
    have h300 : ¬ (300 : ℚ) ≤ q := by linarith
    simp [getROIPerformanceIndicator, ge_iff_le, h1, h100, h300]
  · intro h
    have h3 : ¬ (300 : ℚ) ≤ q := by linarith
    have h1 : ¬ (100 : ℚ) ≤ q := by linarith
    simp [getROIPerformanceIndicator, ge_iff_le, h3, h1, not_le.mpr h]

/-- Claim C9 witness: the boundary inputs `300`, `100`, `0` and
`-0.01` land in Excellent, Good, Positive and Loss respectively. -/
theorem getROIPerformanceIndicator_spec_witness :
    (getROIPerformanceIndicator 300).label = "Excellent ROI"
      ∧ (getROIPerformanceIndicator 100).label = "Good ROI"
      ∧ (getROIPerformanceIndicator 0).label = "Positive ROI"
      ∧ (getROIPerformanceIndicator (mkRat (-1) 100)).label = "Loss" :=
  ⟨(getROIPerformanceIndicator_spec 300).1 (by decide),
   (getROIPerformanceIndicator_spec 100).2.1 (by decide) (by decide),
   (getROIPerformanceIndicator_spec 0).2.2.1 (by decide) (by decide),
   (getROIPerformanceIndicator_spec (mkRat (-1) 100)).2.2.2 (by decide)⟩

/-- Claim C3: the `CAMPAIGN_MATCHED_ROI` flag is statically false, so
for every input state `calculateCampaignROI` short-circuits to the
coming-soon error and never reaches the campaign-matched backend
call. -/
theorem campaign_matched_flag_gates_backend :
    isFeatureEnabled FeatureFlag.CAMPAIGN_MATCHED_ROI = false
      ∧ (∀ sc (f : Option File) (mcc : String),
          calculateCampaignROI sc f mcc = CampaignCalcOutcome.comingSoon campaignMatchedComingSoonMessage)
      ∧ (∀ sc (f : Option File) (mcc : String) (i : Int) (cost : Option ℚ) (fl : File),
          calculateCampaignROI sc f mcc ≠ CampaignCalcOutcome.backendCall i cost fl) := by
  refine ⟨rfl, ?_, ?_⟩
  · intro sc f mcc
    rfl
  · intro sc f mcc i cost fl
    intro h
    simp [calculateCampaignROI, isFeatureEnabled, FEATURE_FLAGS] at h

/-- A JSON parse function agreeing with `JSON.parse` on the body
`{"detail":""}`: an object whose `detail` field is the empty string. -/
def parseDetailEmpty : String → Option Json := fun s =>
  if s = "\x7b\"detail\":\"\"\x7d" then some (Json.obj [("detail", Json.str "")]) else none

/-- A concrete 404 response whose body is `{"detail":""}`. -/
def response404 : Response :=
  { status := 404, statusText := "Not Found", bodyText := "\x7b\"detail\":\"\"\x7d" }

/-- Claim C1 counterexample: a non-2xx response whose JSON body HAS a
`detail` field (the empty string), yet the thrown message is the
fallback `"HTTP 404: Not Found"`, not that field's value — the code
keys on JS truthiness of `detail`, not on its presence. -/
theorem handleResponse_empty_detail_counterexample :
    parseDetailEmpty response404.bodyText = some (Json.obj [("detail", Json.str "")])
      ∧ getField (Json.obj [("detail", Json.str "")]) "detail" = some (Json.str "")
      ∧ handleResponse parseDetailEmpty response404
          = Except.error (Thrown.apiError "HTTP 404: Not Found" (some 404) (some "\x7b\"detail\":\"\"\x7d"))
      ∧ ("HTTP 404: Not Found" : String) ≠ jsStringOf (Json.str "") := by
  refine ⟨rfl, rfl, rfl, ?_⟩
  decide

/-- Claim C1 (amended): on a non-2xx response `handleResponse` throws
`APIError(message, status, bodyText)` where the message is the `detail`
field when that field is present AND truthy, else the `message` field
when present and truthy, else the `"HTTP {status}: {statusText}"`
fallback (also used when the body does not parse); field values are
coerced with JS `String()`.  On a 2xx response it returns the parsed
JSON body, and a 2xx body that fails to parse escapes as a
non-`APIError` exception. -/
theorem handleResponse_spec (parse : String → Option Json) (r : Response) :
    (responseOk r = false → parse r.bodyText = none →
        handleResponse parse r = Except.error (Thrown.apiError
          ("HTTP " ++ toString r.status ++ ": " ++ r.statusText) (some r.status) (some r.bodyText)))
      ∧ (responseOk r = false → ∀ d v, parse r.bodyText = some d → truthyField d "detail" = some v →
          handleResponse parse r = Except.error (Thrown.apiError
            (jsStringOf v) (some r.status) (some r.bodyText)))
      ∧ (responseOk r = false → ∀ d v, parse r.bodyText = some d →
          truthyField d "detail" = none → truthyField d "message" = some v →
          handleResponse parse r = Except.error (Thrown.apiError
            (jsStringOf v) (some r.status) (some r.bodyText)))
      ∧ (responseOk r = false → ∀ d, parse r.bodyText = some d →
          truthyField d "detail" = none → truthyField d "message" = none →
          handleResponse parse r = Except.error (Thrown.apiError
            ("HTTP " ++ toString r.status ++ ": " ++ r.statusText) (some r.status) (some r.bodyText)))
      ∧ (responseOk r = true → ∀ j, parse r.bodyText = some j →
          handleResponse parse r = Except.ok j)
      ∧ (responseOk r = true → parse r.bodyText = none →
          handleResponse parse r = Except.error (Thrown.jsError jsonParseRejectionMessage)) := by
  refine ⟨?_, ?_, ?_, ?_, ?_, ?_⟩
  · intro hok hp
    simp [handleResponse, hok, hp]
  · intro hok d v hp hd
    simp [handleResponse, hok, hp, hd]
  · intro hok d v hp hd hm
    simp [handleResponse, hok, hp, hd, hm]
  · intro hok d hp hd hm
    simp [handleResponse, hok, hp, hd, hm]
  · intro hok j hp
    simp [handleResponse, hok, hp]
  · intro hok hp
    simp [handleResponse, hok, hp]

/-- Claim C1 witness: a 502 response with body `{"detail":"X"}` throws
message `"X"` with status and raw body attached, and a 200 response
with a parseable body returns it. -/
theorem handleResponse_spec_witness :
    handleResponse
        (fun s => if s = "\x7b\"detail\":\"X\"\x7d" then some (Json.obj [("detail", Json.str "X")]) else none)
        { status := 502, statusText := "Bad Gateway", bodyText := "\x7b\"detail\":\"X\"\x7d" }
      = Except.error (Thrown.apiError (jsStringOf (Json.str "X")) (some 502) (some "\x7b\"detail\":\"X\"\x7d"))
      ∧ handleResponse (fun _ => some (Json.str "pong"))
          { status := 200, statusText := "OK", bodyText := "\"pong\"" }
        = Except.ok (Json.str "pong") :=
  ⟨(handleResponse_spec
      (fun s => if s = "\x7b\"detail\":\"X\"\x7d" then some (Json.obj [("detail", Json.str "X")]) else none)
      { status := 502, statusText := "Bad Gateway", bodyText := "\x7b\"detail\":\"X\"\x7d" }).2.1
      rfl (Json.obj [("detail", Json.str "X")]) (Json.str "X") rfl rfl,
   (handleResponse_spec (fun _ => some (Json.str "pong"))
      { status := 200, statusText := "OK", bodyText := "\"pong\"" }).2.2.2.2.1
      rfl (Json.str "pong") rfl⟩

/-- Claim C2 counterexample: `healthCheck` does NOT rethrow an
`APIError` unchanged.  A 500 on `/health` produces an `APIError` with
status 500 and body `"boom"` inside `handleResponse`, but the caller
receives a fresh `APIError` with the `"API health check failed: "`
prefix and neither status nor body. -/
theorem healthCheck_rewraps_apierror_counterexample :
    fetchStep parseNone (Except.ok response500)
        = Except.error (Thrown.apiError "HTTP 500: Internal Server Error" (some 500) (some "boom"))
      ∧ healthCheck parseNone (Except.ok response500)
          = Except.error (Thrown.apiError
              "API health check failed: HTTP 500: Internal Server Error" none none)
      ∧ ("API health check failed: HTTP 500: Internal Server Error" : String)
          ≠ "HTTP 500: Internal Server Error"
      ∧ ((none : Option Nat) ≠ some 500) := by
  refine ⟨rfl, rfl, ?_, ?_⟩
  · decide
  · decide

/-- Claim C2 (amended): a binding such as `getClients` rethrows an
`APIError` from the transport unchanged (status and raw body
preserved) and wraps any other exception as `APIError("Failed to
{operation}: {original message or Network error}")` with no status;
`healthCheck` instead wraps EVERY exception — `APIError` included —
as `APIError("API health check failed: {message}")`, dropping status
and body.  Either way a binding yields its success payload or an
`APIError`, never another exception kind. -/
theorem apiService_error_propagation (parse : String → Option Json) (fetchOutcome : Except Thrown Response) :
    (∀ m st bd, fetchStep parse fetchOutcome = Except.error (Thrown.apiError m st bd) →
        getClients parse fetchOutcome = Except.error (Thrown.apiError m st bd))
      ∧ (∀ e, fetchStep parse fetchOutcome = Except.error e → isAPIError e = false →
          getClients parse fetchOutcome
            = Except.error (Thrown.apiError ("Failed to fetch clients: " ++ messageOrNetwork e) none none))
      ∧ (∀ e, fetchStep parse fetchOutcome = Except.error e →
          healthCheck parse fetchOutcome
            = Except.error (Thrown.apiError ("API health check failed: " ++ messageOrNetwork e) none none))
      ∧ (∀ v, fetchStep parse fetchOutcome = Except.ok v →
          getClients parse fetchOutcome = Except.ok v ∧ healthCheck parse fetchOutcome = Except.ok v)
      ∧ (∀ e, getClients parse fetchOutcome = Except.error e → isAPIError e = true)
      ∧ (∀ e, healthCheck parse fetchOutcome = Except.error e → isAPIError e = true) := by
  refine ⟨?_, ?_, ?_, ?_, ?_, ?_⟩
  · intro m st bd h
    simp [getClients, rewrapCatch, h, isAPIError]
  · intro e h hA
    simp [getClients, rewrapCatch, h, hA]
  · intro e h
    simp [healthCheck, h]
  · intro v h
    exact ⟨by simp [getClients, rewrapCatch, h], by simp [healthCheck, h]⟩
  · intro e h
    unfold getClients rewrapCatch at h
    cases hf : fetchStep parse fetchOutcome with
    | ok v => rw [hf] at h; simp at h
    | error e0 =>
        rw [hf] at h
        by_cases hA : isAPIError e0 = true
        · simp [hA] at h
          rw [← h]
          exact hA
        · simp [hA] at h
          rw [← h]
          rfl
  · intro e h
    unfold healthCheck at h
    cases hf : fetchStep parse fetchOutcome with
    | ok v => rw [hf] at h; simp at h
    | error e0 =>
        rw [hf] at h
        simp at h
        rw [← h]
        rfl

/-- Claim C2 witness: a network-level fetch rejection (a plain
`Error`) is wrapped by `getClients` with the `"Failed to fetch
clients: "` prefix and by `healthCheck` with its own prefix. -/
theorem apiService_error_propagation_witness :
    getClients parseNone (Except.error (Thrown.jsError "fetch failed"))
        = Except.error (Thrown.apiError
            ("Failed to fetch clients: " ++ messageOrNetwork (Thrown.jsError "fetch failed")) none none)
      ∧ healthCheck parseNone (Except.error (Thrown.jsError "fetch failed"))
        = Except.error (Thrown.apiError
            ("API health check failed: " ++ messageOrNetwork (Thrown.jsError "fetch failed")) none none) :=
  ⟨(apiService_error_propagation parseNone (Except.error (Thrown.jsError "fetch failed"))).2.1
      (Thrown.jsError "fetch failed") rfl rfl,
   (apiService_error_propagation parseNone (Except.error (Thrown.jsError "fetch failed"))).2.2.1
      (Thrown.jsError "fetch failed") rfl⟩

/-- Claim C10: a 2xx response whose body fails to parse as JSON never
reaches the caller as a raw parse exception: the failure escapes
`handleResponse` as a non-`APIError`, and the binding's catch block —
here shown both for the generic wrapper at any operation message and
for `getClients` — converts it to an `APIError` with the
`"Failed to {operation}: "` prefix and an undefined status. -/
theorem success_parse_failure_wrapped (opMessage : String) (parse : String → Option Json) (r : Response) :
    responseOk r = true → parse r.bodyText = none →
      (rewrapCatch opMessage (fetchStep parse (Except.ok r))
          = Except.error (Thrown.apiError (opMessage ++ ": " ++ jsonParseRejectionMessage) none none))
        ∧ getClients parse (Except.ok r)
          = Except.error (Thrown.apiError ("Failed to fetch clients: " ++ jsonParseRejectionMessage) none none) := by
  intro hok hp
  have hstep : fetchStep parse (Except.ok r) = Except.error (Thrown.jsError jsonParseRejectionMessage) := by
    simp [fetchStep, handleResponse, hok, hp]
  constructor
  · simp [rewrapCatch, hstep, isAPIError, messageOrNetwork]
  · simp [getClients, rewrapCatch, hstep, isAPIError, messageOrNetwork]

/-- Claim C10 witness: a 200 response with the unparseable body
`"<html>"` surfaces from `getClients` as the wrapped `APIError`. -/
theorem success_parse_failure_wrapped_witness :
    responseOk { status := 200, statusText := "OK", bodyText := "<html>" } = true
      ∧ getClients parseNone (Except.ok { status := 200, statusText := "OK", bodyText := "<html>" })
        = Except.error (Thrown.apiError ("Failed to fetch clients: " ++ jsonParseRejectionMessage) none none) :=
  ⟨by decide,
   (success_parse_failure_wrapped "Failed to fetch clients" parseNone
      { status := 200, statusText := "OK", bodyText := "<html>" } (by decide) rfl).2⟩

/-- A concrete Compare-view state holding results of a finished
comparison for campaigns 1 vs 2, with campaign 3 also available. -/
def compareStateBefore : CompareState :=
  { campaigns := [sampleCampaign 1, sampleCampaign 2, sampleCampaign 3]
    primaryCampaign := some (sampleCampaign 1)
    comparisonCampaign := some (sampleCampaign 2)
    similarCampaigns := [sampleCampaign 2]
    compareResult := some (Json.str "previous result")
    isLoadingCampaigns := false
    isLoadingSimilar := false
    isAnalyzing := false
    campaignError := none
    similarError := none
    analysisError := some "old analysis error" }

/-- The state right after the user picks campaign 3 as the new primary
and the similar-campaigns effect has run its synchronous prefix (the
new fetch has not yet resolved). -/
def compareStateAfter : CompareState :=
  similarEffectStart (selectPrimaryCampaign compareStateBefore (some 3))

/-- Claim C4 counterexample: after switching the primary selection to
campaign 3, and before the new similar-duration fetch resolves, the
comparison selection is cleared — but the stale similar-campaigns list,
the previous comparison result and the previous analysis error all
remain in state, contrary to the claim that they are cleared
synchronously. -/
theorem compare_stale_results_counterexample :
    compareStateAfter.primaryCampaign = some (sampleCampaign 3)
      ∧ compareStateAfter.comparisonCampaign = none
      ∧ compareStateAfter.similarCampaigns = [sampleCampaign 2]
      ∧ compareStateAfter.similarCampaigns ≠ []
      ∧ compareStateAfter.compareResult = some (Json.str "previous result")
      ∧ compareStateAfter.analysisError = some "old analysis error" := by
  refine ⟨rfl, rfl, rfl, ?_, rfl, rfl⟩
  decide

/-- Claim C4 (amended): when a (non-null) primary campaign is
selected, the similar-campaigns effect synchronously — before its
fetch resolves — clears the comparison selection and the similar-fetch
error and raises the loading flag; the similar-campaigns list, any
prior comparison result, and any prior analysis error are NOT cleared
and keep their previous values until the fetch settles. -/
theorem similar_effect_sync_prefix_spec (s : CompareState) (c : CampaignSummary) :
    (similarEffectStart { s with primaryCampaign := some c }).comparisonCampaign = none
      ∧ (similarEffectStart { s with primaryCampaign := some c }).similarError = none
      ∧ (similarEffectStart { s with primaryCampaign := some c }).isLoadingSimilar = true
      ∧ (similarEffectStart { s with primaryCampaign := some c }).similarCampaigns = s.similarCampaigns
      ∧ (similarEffectStart { s with primaryCampaign := some c }).compareResult = s.compareResult
      ∧ (similarEffectStart { s with primaryCampaign := some c }).analysisError = s.analysisError :=
  ⟨rfl, rfl, rfl, rfl, rfl, rfl⟩

/-- A concrete uploaded file. -/
def sampleFile : File := { name := "sales.csv", size := 2048 }

/-- The Enhanced-ROI view's initial state: every field empty. -/
def roiBlankState : ROIState :=
  { campaignCost := ""
    pastedData := ""
    selectedFile := none
    roiResult := none
    calculationError := none
    isParsing := false
    pasteError := none
    isProcessingFile := false
    fileProcessingError := none
    campaigns := []
    selectedCampaign := none
    isLoadingCampaigns := false
    campaignError := none }

/-- A state in which a file has already been selected. -/
def roiStateWithFile : ROIState :=
  { roiBlankState with selectedFile := some sampleFile }

/-- Claim C5 counterexample: with a file already selected, typing
pasted text leaves the file selected — the textarea's `onChange` only
writes `pastedData` — so both input methods are populated at once,
contrary to the claimed mutual exclusivity. -/
theorem paste_does_not_clear_file_counterexample :
    (pastedDataChange roiStateWithFile "Revenue: $100").selectedFile = some sampleFile
      ∧ (pastedDataChange roiStateWithFile "Revenue: $100").pastedData = "Revenue: $100"
      ∧ jsTrim "Revenue: $100" ≠ "" := by
  refine ⟨rfl, rfl, ?_⟩
  decide

/-- Claim C5 (amended): the exclusivity is one-directional — selecting
a file (via the file input or drag-and-drop) clears the pasted text,
but entering pasted text leaves the selected file untouched, so both
inputs can be populated simultaneously; in that situation the
Calculate action gives the file priority. -/
theorem roi_input_exclusivity_spec (s : ROIState) (f : File) (v : String) :
    ((handleFileUpload s (some f)).pastedData = "" ∧ (handleFileUpload s (some f)).selectedFile = some f)
      ∧ ((handleDrop s (some f)).pastedData = "" ∧ (handleDrop s (some f)).selectedFile = some f)
      ∧ ((pastedDataChange s v).selectedFile = s.selectedFile ∧ (pastedDataChange s v).pastedData = v)
      ∧ (s.isProcessingFile = false →
          calculateClick { s with selectedFile := some f } = CalcClickOutcome.processFile f) := by
  refine ⟨⟨rfl, rfl⟩, ⟨rfl, rfl⟩, ⟨rfl, rfl⟩, ?_⟩
  intro hp
  simp [calculateClick, hp]

/-- Claim C5 witness: the file-priority branch applied at a concrete
idle state holding the sample file. -/
theorem roi_input_exclusivity_spec_witness :
    roiBlankState.isProcessingFile = false
      ∧ calculateClick { roiBlankState with selectedFile := some sampleFile }
          = CalcClickOutcome.processFile sampleFile :=
  ⟨rfl, (roi_input_exclusivity_spec roiBlankState sampleFile "x").2.2.2 rfl⟩

/-- Does the Calculate click send the pasted-text ROI request? -/
def isPasteRequestSent : CalcClickOutcome → Bool
  | CalcClickOutcome.sendPasteRequest _ => true
  | _ => false

/-- State with pasted text, no file, and the manual cost `"-5"`. -/
def roiStateNegCost : ROIState :=
  { roiBlankState with campaignCost := "-5", pastedData := "Revenue: $100" }

/-- Claim C6 counterexample: with pasted text present, no file, and a
manual cost that parses to the negative value `-5`, NO ROIRequest is
sent at all — the click falls through every data branch to the
no-input validation error — whereas the claim promises a request with
`campaign_cost` merely omitted. -/
theorem negative_cost_no_request_counterexample :
    roiStateNegCost.selectedFile = none
      ∧ jsTrim roiStateNegCost.pastedData ≠ ""
      ∧ jsNumberOr0 roiStateNegCost.campaignCost < 0
      ∧ calculateClick roiStateNegCost = CalcClickOutcome.showError roiNoInputMessage
      ∧ isPasteRequestSent (calculateClick roiStateNegCost) = false := by
  refine ⟨rfl, ?_, ?_, ?_, ?_⟩
  · decide
  · decide
  · decide
  · decide

/-- Claim C6 (amended): for a Calculate click with pasted text and no
selected file, when the coerced manual cost `parseFloat(cost) || 0` is
non-negative the view sends the `ROIRequest` with `uploaded_data` the
pasted text, `data_format "text"`, `campaign_id` from the optional
selection, and `campaign_cost` present iff the cost is strictly
positive (so `0` and unparsable costs omit it); when the coerced cost
is negative, no request is sent and the no-input validation error is
shown instead. -/
theorem paste_request_spec (s : ROIState) :
    s.selectedFile = none → jsTrim s.pastedData ≠ "" →
      (0 ≤ jsNumberOr0 s.campaignCost →
          calculateClick s = CalcClickOutcome.sendPasteRequest
            { campaign_cost :=
                if 0 < jsNumberOr0 s.campaignCost then some (jsNumberOr0 s.campaignCost) else none
              revenue := none
              additional_costs := none
              campaign_id := s.selectedCampaign.map (fun c => c.campaign_id)
              uploaded_data := some s.pastedData
              data_format := some "text" })
        ∧ (jsNumberOr0 s.campaignCost < 0 →
            calculateClick s = CalcClickOutcome.showError roiNoInputMessage) := by
  intro hfile hpaste
  constructor
  · intro hge
    rcases lt_or_eq_of_le hge with hpos | hzero
    · cases hb : s.isProcessingFile <;>
        · simp only [calculateClick, hfile, hb]
          rw [if_pos ⟨hpaste, hpos⟩]
          rfl
    · cases hb : s.isProcessingFile <;>
        · simp only [calculateClick, hfile, hb]
          rw [if_neg (fun hand => absurd hand.2 (by rw [← hzero]; exact lt_irrefl 0))]
          rw [if_pos ⟨hpaste, hzero.symm⟩]
          rfl
  · intro hneg
    cases hb : s.isProcessingFile <;>
      · simp only [calculateClick, hfile, hb]
        rw [if_neg (fun hand => absurd hand.2 (not_lt.mpr (le_of_lt hneg)))]
        rw [if_neg (fun hand => absurd hand.2 (ne_of_lt hneg))]
        rw [if_neg (not_lt.mpr (le_of_lt hneg))]

/-- Claim C6 witness: cost `"5000"` with pasted text and a selected
campaign sends the request including `campaign_cost: 5000`; cost `"0"`
and the unparsable cost `"abc"` send it with `campaign_cost`
omitted. -/
theorem paste_request_spec_witness :
    (0 : ℚ) ≤ jsNumberOr0 "5000"
      ∧ calculateClick
            { roiBlankState with
                campaignCost := "5000"
                pastedData := "Total Revenue: $25,000"
                selectedCampaign := some (sampleCampaign 7) }
          = CalcClickOutcome.sendPasteRequest
              { campaign_cost := some 5000
                revenue := none
                additional_costs := none
                campaign_id := some 7
                uploaded_data := some "Total Revenue: $25,000"
                data_format := some "text" }
      ∧ calculateClick { roiBlankState with campaignCost := "abc", pastedData := "Revenue: $9" }
          = CalcClickOutcome.sendPasteRequest
              { campaign_cost := none
                revenue := none
                additional_costs := none
                campaign_id := none
                uploaded_data := some "Revenue: $9"
                data_format := some "text" } := by
  refine ⟨by decide, ?_, ?_⟩
  · rw [(paste_request_spec
        { roiBlankState with
            campaignCost := "5000"
            pastedData := "Total Revenue: $25,000"
            selectedCampaign := some (sampleCampaign 7) } rfl (by decide)).1 (by decide)]
    decide
  · rw [(paste_request_spec
        { roiBlankState with campaignCost := "abc", pastedData := "Revenue: $9" } rfl (by decide)).1
        (by decide)]
    decide

end CLDB
